import Mathlib

/-
Verification development for the `tcpdatagen` report generator (`plot.py`).

The program is a linear pipeline: load a whitespace-delimited numeric log
into a table, validate its column count against a fixed schema registry,
and render ten fixed chart pages into one output document.

Modelling conventions (shallow embedding):
  * Numeric sample values are modelled as rationals (`ℚ`).  The program
    performs no arithmetic on the values - it only moves them around - so
    the idealisation is exact for every property stated here.
  * An input file is modelled after lexing: a list of lines, each line a
    list of tokens, where a token is `some q` for a token that lexes as a
    number and `none` for a malformed token (`numpy.loadtxt` rejects it).
  * `numpy.loadtxt` is modelled by `loadtxt`: blank lines are skipped,
    any malformed token or inconsistent row width is an error, and the
    resulting array is squeezed exactly as numpy does (a 1xN or Nx1
    result becomes one-dimensional, a 1x1 result becomes zero-dimensional).
  * The module-level global `data` (set via `global data` in `main`) is
    passed to the Lean counterparts of the chart-drawing functions as an
    explicit first argument named `data`, representing the ambient state;
    the Python parameter lists of those functions do not include it.
  * Rendering is modelled symbolically: a chart records the series drawn
    on it (x-values, y-values, line style, optional legend label) together
    with its labels, grid and legend flags; a page records its title and
    its list of axes.  The semantics of matplotlib `step(..., where="post")`
    is modelled by `stepPostAt`, following matplotlib's documented contract
    that the y-value is held constant from each sample until the next.
-/

namespace Plot

/-- Column map from `plot.py` (`COLS`), in source order: logical metric
name to 0-based column index. -/
def COLS : List (String × Nat) := [
  ("time", 0),
  ("max_tmp", 1),
  ("rtt_100x_ms", 2), ("rttvar_ms", 3), ("rto_100x_ms", 4), ("ato_100x_ms", 5),
  ("pacing_rate_norm", 6), ("delivery_rate_norm", 7),
  ("snd_ssthresh", 8), ("ca_state", 9),

  ("rtt_s_avg", 10), ("rtt_s_min", 11), ("rtt_s_max", 12),
  ("rtt_m_avg", 13), ("rtt_m_min", 14), ("rtt_m_max", 15),
  ("rtt_l_avg", 16), ("rtt_l_min", 17), ("rtt_l_max", 18),

  ("thr_s_avg", 19), ("thr_s_min", 20), ("thr_s_max", 21),
  ("thr_m_avg", 22), ("thr_m_min", 23), ("thr_m_max", 24),
  ("thr_l_avg", 25), ("thr_l_min", 26), ("thr_l_max", 27),

  ("rtt_rate_s_avg", 28), ("rtt_rate_s_min", 29), ("rtt_rate_s_max", 30),
  ("rtt_rate_m_avg", 31), ("rtt_rate_m_min", 32), ("rtt_rate_m_max", 33),
  ("rtt_rate_l_avg", 34), ("rtt_rate_l_min", 35), ("rtt_rate_l_max", 36),

  ("rtt_var_s_avg", 37), ("rtt_var_s_min", 38), ("rtt_var_s_max", 39),
  ("rtt_var_m_avg", 40), ("rtt_var_m_min", 41), ("rtt_var_m_max", 42),
  ("rtt_var_l_avg", 43), ("rtt_var_l_min", 44), ("rtt_var_l_max", 45),

  ("inflight_s_avg", 46), ("inflight_s_min", 47), ("inflight_s_max", 48),
  ("inflight_m_avg", 49), ("inflight_m_min", 50), ("inflight_m_max", 51),
  ("inflight_l_avg", 52), ("inflight_l_min", 53), ("inflight_l_max", 54),

  ("lost_s_avg", 55), ("lost_s_min", 56), ("lost_s_max", 57),
  ("lost_m_avg", 58), ("lost_m_min", 59), ("lost_m_max", 60),
  ("lost_l_avg", 61), ("lost_l_min", 62), ("lost_l_max", 63),

  ("dr_minus_loss", 64),
  ("time_delta_norm", 65),
  ("rtt_rate_scalar", 66),
  ("loss_norm", 67),
  ("acked_rate_norm", 68),
  ("dr_w_ratio", 69),
  ("queue_delay_proxy", 70),
  ("dr_w_norm", 71),
  ("cwnd_unacked_rate", 72),
  ("dr_w_max_ratio", 73),
  ("dr_w_max_norm", 74),
  ("reward", 75),
  ("cwnd_rate", 76)]

/-- Triplet groups from `plot.py` (`TRIPLETS`): base name and unit label. -/
def TRIPLETS : List (String × String) := [
  ("rtt_s", "ms (avg/min/max)"),
  ("rtt_m", "ms (avg/min/max)"),
  ("rtt_l", "ms (avg/min/max)"),

  ("thr_s", "norm (avg/min/max)"),
  ("thr_m", "norm (avg/min/max)"),
  ("thr_l", "norm (avg/min/max)"),

  ("rtt_rate_s", "1/s (avg/min/max)"),
  ("rtt_rate_m", "1/s (avg/min/max)"),
  ("rtt_rate_l", "1/s (avg/min/max)"),

  ("rtt_var_s", "ms (avg/min/max)"),
  ("rtt_var_m", "ms (avg/min/max)"),
  ("rtt_var_l", "ms (avg/min/max)"),

  ("inflight_s", "k pkts (avg/min/max)"),
  ("inflight_m", "k pkts (avg/min/max)"),
  ("inflight_l", "k pkts (avg/min/max)"),

  ("lost_s", "x/100 (avg/min/max)"),
  ("lost_m", "x/100 (avg/min/max)"),
  ("lost_l", "x/100 (avg/min/max)")]

/-- Ungrouped metric display order from `plot.py` (`SINGLES_IN_ORDER`):
metric name and display label. -/
def SINGLES_IN_ORDER : List (String × String) := [
  ("rtt_100x_ms", "RTT (100x ms)"),
  ("rttvar_ms", "RTTVar (ms)"),
  ("rto_100x_ms", "RTO (100x ms)"),
  ("ato_100x_ms", "ATO (100x ms)"),
  ("pacing_rate_norm", "Pacing rate (norm)"),
  ("delivery_rate_norm", "Delivery rate (norm)"),
  ("snd_ssthresh", "snd_ssthresh"),
  ("ca_state", "TCP CA state"),

  ("rtt_rate_scalar", "RTT rate (scalar)"),
  ("dr_minus_loss", "Delivered − Loss (Mbps)"),
  ("time_delta_norm", "time_delta (norm)"),
  ("loss_norm", "loss (norm)"),
  ("acked_rate_norm", "acked_rate (norm)"),
  ("dr_w_ratio", "dr_w ratio"),
  ("queue_delay_proxy", "queue delay proxy"),
  ("dr_w_norm", "dr_w (norm)"),
  ("cwnd_unacked_rate", "cwnd_unacked_rate"),
  ("dr_w_max_ratio", "dr_w_max ratio"),
  ("dr_w_max_norm", "dr_w_max (norm)"),
  ("cwnd_rate", "cwnd_rate"),
  ("reward", "reward"),
  ("max_tmp", "max_tmp (capacity)")]

/-- Dictionary lookup `COLS[key]`: `some` index when the key is registered. -/
def colIndex (key : String) : Option Nat :=
  (COLS.find? (fun p => p.1 == key)).map Prod.snd

/-- Column index actually used for a key; the sentinel 77 (one past every
registered index) models the fact that an unregistered key has no valid
column (in Python the lookup raises `KeyError`; no call site uses one). -/
def pickIdx (key : String) : Nat := (colIndex key).getD 77

/-- Check that `{base}_avg`, `{base}_min`, `{base}_max` resolve to three
adjacent indices in that order. -/
def tripletAdjacent (base : String) : Bool :=
  match colIndex (base ++ "_avg"), colIndex (base ++ "_min"), colIndex (base ++ "_max") with
  | some a, some b, some c => b == a + 1 && c == a + 2
  | _, _, _ => false

/-- Measurement table: rows of samples, each row a list of column values. -/
abbrev Table := List (List ℚ)

/-- Lexed input file: lines of tokens; `none` is a malformed numeric token. -/
abbrev RawFile := List (List (Option ℚ))

/-- Numpy array of 0, 1 or 2 dimensions, as far as this program observes it. -/
inductive NdArray where
  | zero (v : ℚ)
  | one (v : List ℚ)
  | two (rows : List (List ℚ))
deriving DecidableEq

/-- Turn a line of lexed tokens into a parsed row; `none` when any token
is malformed. -/
def seqOpt : List (Option ℚ) → Option (List ℚ)
  | [] => some []
  | none :: _ => none
  | some a :: rest => (seqOpt rest).map (fun l => a :: l)

/-- Parse every line; `none` when any line holds a malformed token. -/
def parseRows : List (List (Option ℚ)) → Option (List (List ℚ))
  | [] => some []
  | r :: rest =>
    match seqOpt r, parseRows rest with
    | some pr, some prest => some (pr :: prest)
    | _, _ => none

/-- Numpy squeeze applied by `loadtxt` (default `ndmin=0`): an `Nx1` or
`1xN` result collapses to one dimension, a `1x1` result to zero dimensions. -/
def squeeze (rows : List (List ℚ)) : NdArray :=
  match rows with
  | [] => .one []
  | [r] =>
    match r with
    | [v] => .zero v
    | _ => .one r
  | _ =>
    if rows.all (fun r => r.length == 1) then .one (rows.map (fun r => r.headD 0))
    else .two rows

/-- Model of `np.loadtxt(path, dtype=float)` on a lexed file: skip blank
lines, fail on a malformed token or on inconsistent row widths, squeeze
the resulting array. -/
def loadtxt (f : RawFile) : Except String NdArray :=
  let lines := f.filter (fun l => !l.isEmpty)
  match parseRows lines with
  | none => Except.error "could not convert string to float"
  | some [] => Except.ok (.one [])
  | some (r0 :: rest) =>
    if rest.all (fun r => r.length == r0.length) then Except.ok (squeeze (r0 :: rest))
    else Except.error "Wrong number of columns"

/-- Reshape step of `load_data`: `if data.ndim == 1: data = data.reshape(1, -1)`. -/
def reshapeRow : NdArray → NdArray
  | .one v => .two [v]
  | d => d

/-- Model of `load_data`: the filesystem is a partial map from path to lexed
file content (`none` = unreadable/missing).  On any failure the function
prints `Error reading '<path>': <cause>` to stderr and exits with status 1,
modelled as `Except.error (message, exit code)`. -/
def load_data (fs : String → Option RawFile) (path : String) : Except (String × Nat) NdArray :=
  match fs path with
  | none =>
    Except.error ("Error reading \x27" ++ path ++ "\x27: " ++ path ++ " not found.", 1)
  | some f =>
    match loadtxt f with
    | Except.error e => Except.error ("Error reading \x27" ++ path ++ "\x27: " ++ e, 1)
    | Except.ok arr => Except.ok (reshapeRow arr)

/-- Maximum registered column index: `max(COLS.values())`. -/
def needed : Nat := (COLS.map Prod.snd).foldl max 0

/-- Numpy `data.shape[1]`: defined only for a two-dimensional array
(`none` models the `IndexError` a 0- or 1-dimensional shape would raise). -/
def shapeOne : NdArray → Option Nat
  | .two rows => some (rows.headD []).length
  | _ => none

/-- Model of `ensure_cols`: raise `ValueError` when the column count does
not exceed the maximum registered index. -/
def ensure_cols (d : NdArray) : Except String Unit :=
  match shapeOne d with
  | none => Except.error "tuple index out of range"
  | some w =>
    if w ≤ needed then
      Except.error ("File has " ++ toString w ++
        " cols; expected ≥ " ++ toString (needed + 1) ++ " from the C++ logger.")
    else Except.ok ()

/-- Model of `pick(data, key)`, i.e. `data[:, COLS[key]]`: the column of
the table at the key's registered index. -/
def pick (data : Table) (key : String) : List ℚ :=
  data.map (fun r => r.getD (pickIdx key) 0)

/-- Line style of a plotted series: matplotlib default (solid), `"--"`
(dashed), `":"` (dotted), or `step(..., where="post")`. -/
inductive LineStyle where
  | solid
  | dashed
  | dotted
  | stepPost
deriving DecidableEq

/-- One series drawn on an axis: x-values, y-values, line style and
optional legend label. -/
structure Series where
  xs : List ℚ
  ys : List ℚ
  style : LineStyle
  label : Option String
deriving DecidableEq

/-- One axis of a figure: the series drawn on it plus its decoration. -/
structure Chart where
  series : List Series
  ylabel : Option String
  xlabel : Option String
  grid : Bool
  legend : Bool
deriving DecidableEq

/-- A freshly created axis with nothing drawn on it. -/
def emptyChart : Chart :=
  { series := [], ylabel := none, xlabel := none, grid := false, legend := false }

/-- One page of the output document: figure title and its stacked axes. -/
structure Page where
  title : String
  charts : List Chart
deriving DecidableEq

/-- Model of `page(fig_title, rows)`: a figure with `rows` stacked empty axes. -/
def page (fig_title : String) (rows : Nat) : Page :=
  { title := fig_title, charts := List.replicate rows emptyChart }

/-- Model of `ax.plot(t, ys); ax.set_ylabel(ylabel); ax.grid(True, ...)`
on a fresh axis: one solid unlabeled series, grid on, no legend. -/
def draw (t ys : List ℚ) (ylabel : String) : Chart :=
  { series := [⟨t, ys, LineStyle.solid, none⟩],
    ylabel := some ylabel, xlabel := none, grid := true, legend := false }

/-- Model of `ax.step(t, ys, where="post"); ax.set_ylabel(ylabel);
ax.grid(True, ...)` on a fresh axis. -/
def drawStep (t ys : List ℚ) (ylabel : String) : Chart :=
  { series := [⟨t, ys, LineStyle.stepPost, none⟩],
    ylabel := some ylabel, xlabel := none, grid := true, legend := false }

/-- Model of `plot_triplet(ax, t, base_key, ylabel)` on a fresh axis.
The first argument `data` is the module-level global the Python body reads
through `pick(data, ...)`; it is NOT in the Python parameter list. -/
def plot_triplet (data : Table) (t : List ℚ) (base_key : String) (ylabel : String) : Chart :=
  { series := [
      ⟨t, pick data (base_key ++ "_avg"), LineStyle.solid, some (base_key ++ " avg")⟩,
      ⟨t, pick data (base_key ++ "_min"), LineStyle.dashed, some (base_key ++ " min")⟩,
      ⟨t, pick data (base_key ++ "_max"), LineStyle.dotted, some (base_key ++ " max")⟩],
    ylabel := some ylabel, xlabel := none, grid := true, legend := true }

/-- Model of `axes[-1].set_xlabel("time (s)")`: set the x-label of the
last axis of the page. -/
def setXlabelLast : List Chart → List Chart
  | [] => []
  | [c] => [{ c with xlabel := some "time (s)" }]
  | c :: rest => c :: setXlabelLast rest

/-- Model of `for ax, key in zip(axes, keys): <draw on ax>`: the zipped
prefix of the axes is drawn on, the remaining axes stay untouched. -/
def fillAxes (axes : List Chart) (keys : List String) (mk : String → Chart) : List Chart :=
  ((axes.zip keys).map (fun p => mk p.2)) ++ axes.drop (axes.zip keys).length

/-- Value rendered at abscissa `x` by a step plot with `where="post"` over
the given sample points, per matplotlib's contract: the y-value of the last
sample whose time is at most `x` (nothing is drawn left of the first
sample). -/
def stepPostAt : List (ℚ × ℚ) → ℚ → Option ℚ
  | [], _ => none
  | p :: rest, x =>
    if x < p.1 then none
    else some ((stepPostAt rest x).getD p.2)

/-- Page 1 of `main`: headline gradients and reward. -/
def page1 (data : Table) (t : List ℚ) (title_suffix : String) : Page :=
  let p := page ("Headline: Gradients & Reward — " ++ title_suffix) 5
  let axes := p.charts
  let axes := axes.set 0 (plot_triplet data t "rtt_rate_s" "Short grad (1/s)")
  let axes := axes.set 1 (plot_triplet data t "rtt_rate_m" "Med grad (1/s)")
  let axes := axes.set 2 (plot_triplet data t "rtt_rate_l" "Long grad (1/s)")
  let axes := axes.set 3 (draw t (pick data "rtt_rate_scalar") "rtt_rate scalar")
  let axes := axes.set 4
    { draw t (pick data "reward") "reward" with xlabel := some "time (s)" }
  { p with charts := axes }

/-- Keys drawn on page 2 (`singles` local of `main`). -/
def singles : List String :=
  ["rtt_100x_ms", "rttvar_ms", "rto_100x_ms", "ato_100x_ms",
   "pacing_rate_norm", "delivery_rate_norm"]

/-- Page 2 of `main`: base TCP variables. -/
def page2 (data : Table) (t : List ℚ) : Page :=
  let p := page "Base TCP / pacing / delivery" 6
  let axes := fillAxes p.charts singles (fun key => draw t (pick data key) key)
  { p with charts := setXlabelLast axes }

/-- Page 3 of `main`: congestion state; the `ca_state` axis is drawn with
`ax.step(..., where="post")`. -/
def page3 (data : Table) (t : List ℚ) : Page :=
  let p := page "Congestion state" 3
  let axes := p.charts
  let axes := axes.set 0 (draw t (pick data "snd_ssthresh") "snd_ssthresh")
  let axes := axes.set 1 (drawStep t (pick data "ca_state") "ca_state")
  let axes := axes.set 2
    { draw t (pick data "cwnd_rate") "cwnd_rate" with xlabel := some "time (s)" }
  { p with charts := axes }

/-- Shared shape of pages 4-9: three triplet axes, x-label on the last. -/
def tripletPage (data : Table) (t : List ℚ) (fig_title : String)
    (b0 y0 b1 y1 b2 y2 : String) : Page :=
  let p := page fig_title 3
  let axes := p.charts
  let axes := axes.set 0 (plot_triplet data t b0 y0)
  let axes := axes.set 1 (plot_triplet data t b1 y1)
  let axes := axes.set 2 (plot_triplet data t b2 y2)
  { p with charts := setXlabelLast axes }

/-- Keys drawn on page 10 (`tail_keys` local of `main`). -/
def tail_keys : List String := [
  "dr_minus_loss", "time_delta_norm", "rtt_rate_scalar", "loss_norm", "acked_rate_norm",
  "dr_w_ratio", "queue_delay_proxy", "dr_w_norm", "cwnd_unacked_rate",
  "dr_w_max_ratio", "dr_w_max_norm", "reward", "max_tmp"]

/-- Page 10 of `main`: tail metrics.  The figure is created with 7 rows;
the drawing loop zips the 7 axes against `tail_keys[:rows]`. -/
def page10 (data : Table) (t : List ℚ) : Page :=
  let p := page "Tail metrics" 7
  let rows := p.charts.length
  let axes := fillAxes p.charts (tail_keys.take rows) (fun key => draw t (pick data key) key)
  { p with charts := setXlabelLast axes }

/-- The ten pages of the report, in the order `main` appends them. -/
def buildPages (data : Table) (t : List ℚ) (title_suffix : String) : List Page := [
  page1 data t title_suffix,
  page2 data t,
  page3 data t,
  tripletPage data t "RTT smoothed windows"
    "rtt_s" "RTT short (ms)" "rtt_m" "RTT med (ms)" "rtt_l" "RTT long (ms)",
  tripletPage data t "Throughput (normalized) windows"
    "thr_s" "thr short (norm)" "thr_m" "thr med (norm)" "thr_l" "thr long (norm)",
  tripletPage data t "RTT gradient windows"
    "rtt_rate_s" "grad short (1/s)" "rtt_rate_m" "grad med (1/s)" "rtt_rate_l" "grad long (1/s)",
  tripletPage data t "RTT variance windows"
    "rtt_var_s" "rttvar short (ms)" "rtt_var_m" "rttvar med (ms)" "rtt_var_l" "rttvar long (ms)",
  tripletPage data t "Inflight windows"
    "inflight_s" "inflight short (k pkts)" "inflight_m" "inflight med (k pkts)"
    "inflight_l" "inflight long (k pkts)",
  tripletPage data t "Loss windows"
    "lost_s" "lost short (x/100)" "lost_m" "lost med (x/100)" "lost_l" "lost long (x/100)",
  page10 data t]

/-- View of a validated array as a table of rows (`ensure_cols` succeeding
guarantees the array is two-dimensional). -/
def toTable : NdArray → Table
  | .two rows => rows
  | .one v => [v]
  | .zero _ => []

/-- `os.path.basename`: the part after the last slash. -/
def basename (p : String) : String := (p.splitOn "/").getLastD p

/-- Scan for the last occurrence of a character, tracking the current
index and the best index found so far. -/
def rfindAux : List Char → Char → Nat → Int → Int
  | [], _, _, acc => acc
  | x :: xs, c, i, acc => rfindAux xs c (i + 1) (if x == c then Int.ofNat i else acc)

/-- Index of the last occurrence of a character, -1 when absent
(Python `str.rfind`). -/
def rfind (p : String) (c : Char) : Int := rfindAux p.data c 0 (-1)

/-- Stem part of `os.path.splitext`: everything before the final extension;
a dot-only leading run of the basename carries no extension. -/
def splitextStem (p : String) : String :=
  let sepIndex := rfind p (Char.ofNat 47)
  let dotIndex := rfind p (Char.ofNat 46)
  if sepIndex < dotIndex then
    let name := (p.data.drop (sepIndex + 1).toNat).take (dotIndex - sepIndex - 1).toNat
    if name.any (fun ch => ch ≠ Char.ofNat 46) then String.mk (p.data.take dotIndex.toNat)
    else p
  else p

/-- Observable outcome of one program run: the document written (when
rendering was reached), the lines printed to stdout and stderr, and the
exit status. -/
structure RunResult where
  doc : Option (List Page)
  stdout : List String
  stderr : List String
  exitCode : Nat
deriving DecidableEq

/-- Model of `main` after argument parsing: `file` is the positional input
path, `outOpt` the optional `--out` value, `fs` the ambient filesystem. -/
def main (fs : String → Option RawFile) (file : String) (outOpt : Option String) : RunResult :=
  match load_data fs file with
  | Except.error (msg, code) =>
    { doc := none, stdout := [], stderr := [msg], exitCode := code }
  | Except.ok d =>
    match ensure_cols d with
    | Except.error msg =>
      { doc := none, stdout := [], stderr := [msg], exitCode := 1 }
    | Except.ok _ =>
      let data := toTable d
      let out_path := outOpt.getD (splitextStem file ++ "_all_metrics.pdf")
      let t := pick data "time"
      let title_suffix := basename file
      { doc := some (buildPages data t title_suffix),
        stdout := ["Wrote " ++ out_path], stderr := [], exitCode := 0 }

/-- Concrete sample row used by witnesses and counterexamples: one sample,
all 77 columns zero. -/
def zerosRow : List ℚ := List.replicate 77 0

/-- Row of all ones, 77 columns wide. -/
def onesRow : List ℚ := List.replicate 77 1

/-- Second sample row: elapsed time 1.0 (column 0), CA state 3 (column 9). -/
def stateRow : List ℚ := ((List.replicate 77 (0 : ℚ)).set 0 1).set 9 3

/-- Two-sample table: a step of `ca_state` from 0 to 3 at time 1.0. -/
def sampleTab : Table := [zerosRow, stateRow]

/-- Input file whose only token is malformed (fails numeric lexing). -/
def badFile : RawFile := [[none]]

/-! Helper lemmas shared by the claim theorems. -/

set_option maxRecDepth 10000 in
theorem needed_eq : needed = 76 := by decide

theorem seqOpt_map_some (l : List ℚ) : seqOpt (l.map some) = some l := by
  induction l with
  | nil => rfl
  | cons a rest ih => simp [seqOpt, ih]

theorem parseRows_map_single (l : List ℚ) :
    parseRows (l.map (fun v => [some v])) = some (l.map (fun v => [v])) := by
  induction l with
  | nil => rfl
  | cons a rest ih => simp [parseRows, seqOpt, ih]

theorem filter_col (l : List ℚ) :
    (l.map (fun v => [some v])).filter (fun r => !r.isEmpty) = l.map (fun v => [some v]) := by
  induction l with
  | nil => rfl
  | cons a rest ih => simp [List.filter, ih]

/-- Loading a file holding one line of at least two numeric tokens yields a
one-row two-dimensional table. -/
theorem load_rowFile (vs : List ℚ) (path : String) (h2 : 2 ≤ vs.length) :
    load_data (fun _ => some [vs.map some]) path = Except.ok (NdArray.two [vs]) := by
  rcases vs with _ | ⟨a, _ | ⟨b, rest⟩⟩
  · simp at h2
  · simp at h2
  · simp [load_data, loadtxt, parseRows, seqOpt, seqOpt_map_some, squeeze, reshapeRow]

/-- Loading a file of at least two lines holding one numeric token each
also yields a one-row two-dimensional table (numpy squeezes the column). -/
theorem load_colFile (vs : List ℚ) (path : String) (h2 : 2 ≤ vs.length) :
    load_data (fun _ => some (vs.map (fun v => [some v]))) path = Except.ok (NdArray.two [vs]) := by
  rcases vs with _ | ⟨a, _ | ⟨b, rest⟩⟩
  · simp at h2
  · simp at h2
  · simp [load_data, loadtxt, List.filter, filter_col, parseRows, seqOpt,
      parseRows_map_single, squeeze, reshapeRow]
    simp [Function.comp_def]

theorem getD_mem {l : List ℚ} {n : Nat} {d : ℚ} (h : n < l.length) : l.getD n d ∈ l := by
  induction l generalizing n with
  | nil => simp at h
  | cons a t ih =>
    cases n with
    | zero => simp
    | succ m =>
      simp only [List.getD_cons_succ]
      exact List.mem_cons_of_mem a (ih (by simpa using h))

/-- Evaluation of a `where="post"` step plot strictly between two adjacent
samples of a sorted abscissa list: the earlier sample's value is held. -/
theorem stepPostAt_interval (ts ys : List ℚ) (i : Nat) (x : ℚ)
    (hsort : List.Sorted (· ≤ ·) ts) (hi : i + 1 < ts.length)
    (hys : ts.length ≤ ys.length)
    (hx1 : ts.getD i 0 ≤ x) (hx2 : x < ts.getD (i + 1) 0) :
    stepPostAt (ts.zip ys) x = some (ys.getD i 0) := by
  induction i generalizing ts ys with
  | zero =>
    rcases ts with _ | ⟨t0, _ | ⟨t1, ts2⟩⟩
    · simp at hi
    · simp at hi
    · rcases ys with _ | ⟨y0, _ | ⟨y1, ys2⟩⟩
      · simp at hys
      · simp at hys
      · simp only [List.getD_cons_zero, List.getD_cons_succ] at hx1 hx2
        simp [stepPostAt, hx2, not_lt.2 hx1]
  | succ n ih =>
    rcases ts with _ | ⟨t0, ts1⟩
    · simp at hi
    · rcases ys with _ | ⟨y0, ys1⟩
      · simp at hys
      · simp only [List.getD_cons_succ] at hx1 hx2 ⊢
        have hi1 : n + 1 < ts1.length := by simpa using hi
        have hys1 : ts1.length ≤ ys1.length := by simpa using hys
        have hrec := ih ts1 ys1 (List.sorted_cons.mp hsort).2 hi1 hys1 hx1 hx2
        have ht0 : t0 ≤ x :=
          le_trans (List.rel_of_sorted_cons hsort _ (getD_mem (Nat.lt_of_succ_lt hi1))) hx1
        have hstep : stepPostAt ((t0, y0) :: ts1.zip ys1) x =
            some ((stepPostAt (ts1.zip ys1) x).getD y0) := by
          simp [stepPostAt, not_lt.2 ht0]
        rw [List.zip_cons_cons, hstep, hrec]
        simp [List.getD]

/-- Reduction of `ensure_cols` on a two-dimensional table of known width. -/
theorem ensure_cols_spec (d : NdArray) (w : Nat) (h : shapeOne d = some w) :
    ensure_cols d = if w ≤ needed then Except.error
      ("File has " ++ toString w ++ " cols; expected ≥ " ++ toString (needed + 1) ++
        " from the C++ logger.")
    else Except.ok () := by
  unfold ensure_cols
  rw [h]

/-! Claim theorems. -/

set_option maxRecDepth 10000 in
/-- C7: the Schema Registry (`COLS`) is a total mapping of exactly 77 fixed
metric names to 0-based column indices; the names are pairwise distinct, the
indices are pairwise distinct and cover `0..76` contiguously, and for every
triplet base name in `TRIPLETS` the entries `{base}_avg`, `{base}_min`,
`{base}_max` resolve to three adjacent indices in that order. -/
theorem C7_schema_registry :
    COLS.length = 77 ∧
    (COLS.map Prod.fst).Nodup ∧
    (COLS.map Prod.snd).Nodup ∧
    COLS.all (fun p => decide (p.2 < 77)) = true ∧
    (List.range 77).all (fun i => (COLS.map Prod.snd).contains i) = true ∧
    TRIPLETS.all (fun bu => tripletAdjacent bu.1) = true := by
  refine ⟨rfl, by decide, by decide, by decide, by decide, by decide⟩

/-- C6: for every triplet base name, `plot_triplet` draws exactly three
series in the order avg, min, max - the average solid, the minimum dashed,
the maximum dotted, each carrying a legend label - and attaches a legend to
the chart. -/
theorem C6_plot_triplet (data : Table) (t : List ℚ) (base_key ylabel : String) :
    (plot_triplet data t base_key ylabel).series =
      [⟨t, pick data (base_key ++ "_avg"), LineStyle.solid, some (base_key ++ " avg")⟩,
       ⟨t, pick data (base_key ++ "_min"), LineStyle.dashed, some (base_key ++ " min")⟩,
       ⟨t, pick data (base_key ++ "_max"), LineStyle.dotted, some (base_key ++ " max")⟩] ∧
    (plot_triplet data t base_key ylabel).series.length = 3 ∧
    (plot_triplet data t base_key ylabel).legend = true :=
  ⟨rfl, rfl, rfl⟩

/-- C2: validation (`ensure_cols`) succeeds exactly when the table's column
count exceeds the maximum column index registered in the Schema Registry
(which is 76): a table of exactly 77 columns passes, and a table of 76
columns raises an error whose message carries both the actual column count
and the required column count. -/
theorem C2_ensure_cols (d : NdArray) (w : Nat) (h : shapeOne d = some w) :
    needed = 76 ∧
    (ensure_cols d = Except.ok () ↔ needed < w) ∧
    (w = needed + 1 → ensure_cols d = Except.ok ()) ∧
    (w = needed → ensure_cols d = Except.error
      ("File has " ++ toString w ++ " cols; expected ≥ " ++ toString (needed + 1) ++
        " from the C++ logger.")) := by
  have h76 : needed = 76 := needed_eq
  rw [ensure_cols_spec d w h]
  refine ⟨h76, ⟨?_, ?_⟩, ?_, ?_⟩
  · intro hok
    by_cases hw : w ≤ needed
    · rw [if_pos hw] at hok
      exact absurd hok (by simp)
    · omega
  · intro hlt
    rw [if_neg (by omega)]
  · intro hw
    rw [if_neg (by omega)]
  · intro hw
    rw [if_pos (by omega)]

/-- C2 witness: `C2_ensure_cols` instantiated at a concrete one-row table
of width 77. -/
theorem C2_ensure_cols_witness :
    shapeOne (NdArray.two [zerosRow]) = some 77 ∧
    (needed = 76 ∧
     (ensure_cols (NdArray.two [zerosRow]) = Except.ok () ↔ needed < 77) ∧
     (77 = needed + 1 → ensure_cols (NdArray.two [zerosRow]) = Except.ok ()) ∧
     (77 = needed → ensure_cols (NdArray.two [zerosRow]) = Except.error
       ("File has " ++ toString 77 ++ " cols; expected ≥ " ++ toString (needed + 1) ++
         " from the C++ logger."))) :=
  ⟨by simp [shapeOne, zerosRow], C2_ensure_cols _ 77 (by simp [shapeOne, zerosRow])⟩

/-- C3: an input file holding exactly one data line (of at least two
tokens) loads as a one-row two-dimensional table, not a column vector, and
`pick(table, "time")` on it yields a sequence of length 1, not a scalar. -/
theorem C3_single_row (path : String) (vs : List ℚ) (h2 : 2 ≤ vs.length) :
    load_data (fun _ => some [vs.map some]) path = Except.ok (NdArray.two [vs]) ∧
    pick [vs] "time" = [vs.getD 0 0] ∧
    (pick [vs] "time").length = 1 :=
  ⟨load_rowFile vs path h2, rfl, rfl⟩

/-- C3 witness: `C3_single_row` instantiated at a concrete two-token line. -/
theorem C3_single_row_witness :
    2 ≤ ([(3 : ℚ), 4]).length ∧
    (load_data (fun _ => some [[(3 : ℚ), 4].map some]) "run.log" =
       Except.ok (NdArray.two [[(3 : ℚ), 4]]) ∧
     pick [[(3 : ℚ), 4]] "time" = [[(3 : ℚ), 4].getD 0 0] ∧
     (pick [[(3 : ℚ), 4]] "time").length = 1) :=
  ⟨by decide, C3_single_row "run.log" [3, 4] (by decide)⟩

/-- C10: an input file whose parse yields a one-dimensional array collapses
to a one-row table; in particular an N-row single-column file loads as the
same 1-row N-column table as the corresponding single-row file, so the
loader cannot distinguish one row from one column. -/
theorem C10_one_dim_collapse (path : String) (vs : List ℚ) (h2 : 2 ≤ vs.length) :
    load_data (fun _ => some (vs.map (fun v => [some v]))) path = Except.ok (NdArray.two [vs]) ∧
    load_data (fun _ => some (vs.map (fun v => [some v]))) path =
      load_data (fun _ => some [vs.map some]) path := by
  refine ⟨load_colFile vs path h2, ?_⟩
  rw [load_colFile vs path h2, load_rowFile vs path h2]

/-- C10 witness: `C10_one_dim_collapse` instantiated at a concrete
three-line single-column file. -/
theorem C10_one_dim_collapse_witness :
    2 ≤ ([(5 : ℚ), 6, 7]).length ∧
    (load_data (fun _ => some ([(5 : ℚ), 6, 7].map (fun v => [some v]))) "run.log" =
       Except.ok (NdArray.two [[(5 : ℚ), 6, 7]]) ∧
     load_data (fun _ => some ([(5 : ℚ), 6, 7].map (fun v => [some v]))) "run.log" =
       load_data (fun _ => some [[(5 : ℚ), 6, 7].map some]) "run.log") :=
  ⟨by decide, C10_one_dim_collapse "run.log" [5, 6, 7] (by decide)⟩

/-- C4: on any input that loads as a table of at least 77 columns
(hence at least one data row), `main` writes a document of exactly 10 pages
in the fixed order of the spec, prints the resolved output path to standard
output, and exits with status 0. -/
theorem C4_main_success (fs : String → Option RawFile) (file : String) (outOpt : Option String)
    (d : NdArray) (w : Nat)
    (hload : load_data fs file = Except.ok d) (hw : shapeOne d = some w) (h77 : 77 ≤ w) :
    main fs file outOpt =
      { doc := some (buildPages (toTable d) (pick (toTable d) "time") (basename file)),
        stdout := ["Wrote " ++ outOpt.getD (splitextStem file ++ "_all_metrics.pdf")],
        stderr := [], exitCode := 0 } ∧
    (buildPages (toTable d) (pick (toTable d) "time") (basename file)).length = 10 ∧
    (buildPages (toTable d) (pick (toTable d) "time") (basename file)).map Page.title =
      ["Headline: Gradients & Reward — " ++ basename file,
       "Base TCP / pacing / delivery",
       "Congestion state",
       "RTT smoothed windows",
       "Throughput (normalized) windows",
       "RTT gradient windows",
       "RTT variance windows",
       "Inflight windows",
       "Loss windows",
       "Tail metrics"] := by
  have h76 : needed = 76 := needed_eq
  have hok : ensure_cols d = Except.ok () := by
    rw [ensure_cols_spec d w hw, if_neg (by omega)]
  refine ⟨?_, rfl, rfl⟩
  simp [main, hload, hok]

/-- C4 witness: `C4_main_success` instantiated at a concrete single-row
77-column input file. -/
theorem C4_main_success_witness :
    load_data (fun _ => some [zerosRow.map some]) "d/run.log" =
      Except.ok (NdArray.two [zerosRow]) ∧
    shapeOne (NdArray.two [zerosRow]) = some 77 ∧ 77 ≤ 77 ∧
    (main (fun _ => some [zerosRow.map some]) "d/run.log" none =
      { doc := some (buildPages (toTable (NdArray.two [zerosRow]))
          (pick (toTable (NdArray.two [zerosRow])) "time") (basename "d/run.log")),
        stdout := ["Wrote " ++ (none : Option String).getD
          (splitextStem "d/run.log" ++ "_all_metrics.pdf")],
        stderr := [], exitCode := 0 } ∧
     (buildPages (toTable (NdArray.two [zerosRow]))
        (pick (toTable (NdArray.two [zerosRow])) "time") (basename "d/run.log")).length = 10 ∧
     (buildPages (toTable (NdArray.two [zerosRow]))
        (pick (toTable (NdArray.two [zerosRow])) "time") (basename "d/run.log")).map Page.title =
      ["Headline: Gradients & Reward — " ++ basename "d/run.log",
       "Base TCP / pacing / delivery",
       "Congestion state",
       "RTT smoothed windows",
       "Throughput (normalized) windows",
       "RTT gradient windows",
       "RTT variance windows",
       "Inflight windows",
       "Loss windows",
       "Tail metrics"]) :=
  ⟨load_rowFile zerosRow "d/run.log" (by simp [zerosRow]),
   by simp [shapeOne, zerosRow],
   le_refl 77,
   C4_main_success (fun _ => some [zerosRow.map some]) "d/run.log" none
     (NdArray.two [zerosRow]) 77
     (load_rowFile zerosRow "d/run.log" (by simp [zerosRow]))
     (by simp [shapeOne, zerosRow]) (le_refl 77)⟩

/-- C5: the `ca_state` chart on page 3 is a `where="post"` step series, and
for adjacent samples at sorted times, the value it renders at every `x`
in the half-open interval from one sample time up to (excluding) the next
is the earlier sample's state - held constant, not interpolated. -/
theorem C5_ca_state_step (data : Table) (t : List ℚ) (i : Nat) (x : ℚ)
    (hsort : List.Sorted (· ≤ ·) t) (hi : i + 1 < t.length)
    (hlen : t.length ≤ (pick data "ca_state").length)
    (hx1 : t.getD i 0 ≤ x) (hx2 : x < t.getD (i + 1) 0) :
    (page3 data t).charts.getD 1 emptyChart = drawStep t (pick data "ca_state") "ca_state" ∧
    stepPostAt (t.zip (pick data "ca_state")) x = some ((pick data "ca_state").getD i 0) :=
  ⟨rfl, stepPostAt_interval t (pick data "ca_state") i x hsort hi hlen hx1 hx2⟩

/-- C5 witness: `C5_ca_state_step` at the two-sample table whose state
steps from 0 to 3 at time 1.0, evaluated at `x = 0`. -/
theorem C5_ca_state_step_witness :
    List.Sorted (· ≤ ·) [(0 : ℚ), 1] ∧
    ((page3 sampleTab [(0 : ℚ), 1]).charts.getD 1 emptyChart =
       drawStep [(0 : ℚ), 1] (pick sampleTab "ca_state") "ca_state" ∧
     stepPostAt ([(0 : ℚ), 1].zip (pick sampleTab "ca_state")) 0 =
       some ((pick sampleTab "ca_state").getD 0 0)) :=
  ⟨by decide,
   C5_ca_state_step sampleTab [(0 : ℚ), 1] 0 0 (by decide) (by decide) (by decide)
     (by decide) (by decide)⟩

/-- C8: on any input path whose file is missing or fails to load as a
numeric whitespace-delimited table, the program reports to the error stream
a message naming the file path and the underlying cause, writes no
document, and exits with the non-zero status 1. -/
theorem C8_load_error (fs : String → Option RawFile) (path : String) (outOpt : Option String)
    (h : fs path = none ∨ ∃ f e, fs path = some f ∧ loadtxt f = Except.error e) :
    (main fs path outOpt).exitCode = 1 ∧ (main fs path outOpt).exitCode ≠ 0 ∧
    (main fs path outOpt).doc = none ∧
    ∃ cause, (main fs path outOpt).stderr =
      ["Error reading \x27" ++ path ++ "\x27: " ++ cause] := by
  rcases h with h | ⟨f, e, hf, he⟩
  · refine ⟨?_, ?_, ?_, ⟨path ++ " not found.", ?_⟩⟩ <;>
      simp [main, load_data, h, String.append_assoc]
  · refine ⟨?_, ?_, ?_, ⟨e, ?_⟩⟩ <;> simp [main, load_data, hf, he]

/-- C8 witness: `C8_load_error` at a concrete file whose single token is
malformed. -/
theorem C8_load_error_witness :
    ((fun _ : String => some badFile) "x.log" = none ∨
     ∃ f e, (fun _ : String => some badFile) "x.log" = some f ∧ loadtxt f = Except.error e) ∧
    ((main (fun _ => some badFile) "x.log" none).exitCode = 1 ∧
     (main (fun _ => some badFile) "x.log" none).exitCode ≠ 0 ∧
     (main (fun _ => some badFile) "x.log" none).doc = none ∧
     ∃ cause, (main (fun _ => some badFile) "x.log" none).stderr =
       ["Error reading \x27" ++ "x.log" ++ "\x27: " ++ cause]) :=
  ⟨Or.inr ⟨badFile, "could not convert string to float", rfl, rfl⟩,
   C8_load_error (fun _ => some badFile) "x.log" none
     (Or.inr ⟨badFile, "could not convert string to float", rfl, rfl⟩)⟩

/-- C9 counterexample: the claim that a chart-drawing step depends only on
its declared parameters is false - `plot_triplet` is called with identical
arguments (`ax`, `t`, `base_key`, `ylabel`) in both runs, yet the series it
plots differ because the module-level global table differs. -/
theorem C9_ambient_state_cex :
    ¬ (plot_triplet [zerosRow] [0] "rtt_s" "RTT short (ms)" =
       plot_triplet [onesRow] [0] "rtt_s" "RTT short (ms)") := by decide

/-- C9 amended: `plot_triplet` reads the measurement table from the
module-level global rather than a parameter; two runs with identical
declared arguments plot identical series exactly when the ambient global
tables agree on the three columns the triplet draws. -/
theorem C9_global_table_flow (d dAlt : Table) (t : List ℚ) (base_key ylabel : String) :
    plot_triplet d t base_key ylabel = plot_triplet dAlt t base_key ylabel ↔
      (pick d (base_key ++ "_avg") = pick dAlt (base_key ++ "_avg") ∧
       pick d (base_key ++ "_min") = pick dAlt (base_key ++ "_min") ∧
       pick d (base_key ++ "_max") = pick dAlt (base_key ++ "_max")) := by
  simp [plot_triplet, Chart.mk.injEq, Series.mk.injEq]

set_option maxRecDepth 10000 in
/-- C1: evidence of the page-10 truncation bug - `tail_keys` lists 13
derived/reward series (matching the spec and the code's own comment), but
the tenth page is created with only 7 axes, so exactly 7 series are drawn,
one per row, labelled by the first 7 tail keys. -/
theorem C1_tail_page_truncated :
    tail_keys.length = 13 ∧
    ((buildPages [zerosRow] (pick [zerosRow] "time") "run.log").getD 9 (page "" 0)).charts.length
      = 7 ∧
    (((buildPages [zerosRow] (pick [zerosRow] "time") "run.log").getD 9 (page "" 0)).charts.map
       (fun c => c.series.length)).sum = 7 ∧
    ((buildPages [zerosRow] (pick [zerosRow] "time") "run.log").getD 9 (page "" 0)).charts.map
       Chart.ylabel = (tail_keys.take 7).map some := by
  refine ⟨rfl, by decide, by decide, by decide⟩

end Plot
